import Mathlib

/-!
Verification development for the repository's setup script
(`scripts/setup_project.py`).

The script has two pieces with actual logic: the table-of-contents
generator `generate_toc_content` and the orchestration sequence `main`.
Both are embedded shallowly below.  Python strings are modelled as Lean
`String` (lists of characters); the Python string methods the script
uses (`str.replace`, `str.strip`, `sorted`, glob suffix matching) are
given executable Lean counterparts with the same semantics.

The chapter directory (`rules/`) is modelled as the list of names of the
regular files it contains; `Path.is_file` becomes membership in that
list and `rules_dir.glob('*.md')` becomes filtering for the `.md`
suffix.  Directory listing order is arbitrary, which is why several
theorems below quantify over permutations of the listing.
-/

/-- Python `s.replace(pat, rep)` on character lists: scan left to right,
replacing each non-overlapping occurrence of `pat` and skipping past it.
`fuel` bounds the recursion; it is always called with `fuel = s.length`,
which suffices because every step consumes at least one character. -/
def replaceAll (pat rep : List Char) : Nat → List Char → List Char
  | 0, s => s
  | _ + 1, [] => []
  | fuel + 1, c :: rest =>
    if (!pat.isEmpty) && pat.isPrefixOf (c :: rest) then
      rep ++ replaceAll pat rep fuel ((c :: rest).drop pat.length)
    else
      c :: replaceAll pat rep fuel rest

/-- Python `s.replace(pat, rep)` on strings. -/
def pyReplace (s pat rep : String) : String :=
  String.mk (replaceAll pat.data rep.data s.data.length s.data)

/-- The characters Python `str.strip()` removes. -/
def isPySpace (c : Char) : Bool :=
  c == ' ' || c == '\t' || c == '\n' || c == '\x0d' || c == '\x0b' || c == '\x0c'

/-- Python `s.strip()`: drop whitespace from both ends. -/
def pyStrip (s : String) : String :=
  String.mk (((s.data.dropWhile isPySpace).reverse.dropWhile isPySpace).reverse)

/-- Python `s.endswith(suffix)`; also models matching a `*.md` glob
pattern against a filename. -/
def pyEndsWith (s suffix : String) : Bool :=
  List.isSuffixOf suffix.data s.data

/-- Python `sorted` on a list of strings (lexicographic by code point;
Lean's `String` order is the same).  `sorted` is a stable comparison
sort; on strings any sorting algorithm for `≤` produces the same list,
and we use insertion sort. -/
def sortStrings (l : List String) : List String :=
  List.insertionSort (fun a b : String => a ≤ b) l

/-- `CHAPTER_FILES` from `scripts/setup_project.py` (lines 12-23): the
fixed ordered chapter-filename list. -/
def CHAPTER_FILES : List String :=
  ["00-Introduction.md",
   "1-Using-LLMs-Effectively-Safely-The-Core-Interaction-Loop.md",
   "2-Security-Non-Negotiable-Foundations.md",
   "3-Code-Quality-Maintainability.md",
   "4-Testing-Validation.md",
   "5-Performance-Efficiency.md",
   "6-Architecture-System-Design.md",
   "7-Frontend-UIUX-Accessibility.md",
   "8-DevOps-Infrastructure.md",
   "9-Specific-Technologies-Advanced-Topics.md"]

/-- The title computed for a primary-section ("Chapters") entry
(`setup_project.py` line 502): the chained `str.replace` passes followed
by `strip`. -/
def chapterTitle (filename : String) : String :=
  pyStrip
    (pyReplace
      (pyReplace
        (pyReplace
          (pyReplace
            (pyReplace
              (pyReplace
                (pyReplace
                  (pyReplace
                    (pyReplace
                      (pyReplace
                        (pyReplace
                          (pyReplace
                            (pyReplace filename (".md") (""))
                            ("-") (" "))
                          ("00") (""))
                        ("0") (""))
                      ("1") ("1."))
                    ("2") ("2."))
                  ("3") ("3."))
                ("4") ("4."))
              ("5") ("5."))
            ("6") ("6."))
          ("7") ("7."))
        ("8") ("8."))
      ("9") ("9."))

/-- The title computed for a secondary-section ("Other Files") entry
(`setup_project.py` line 516): only `.md` removal and hyphen
replacement. -/
def otherTitle (filename : String) : String :=
  pyReplace (pyReplace filename (".md") ("")) ("-") (" ")

/-- One Markdown list entry, the f-string of lines 505 and 518. -/
def entryLine (title link : String) : String :=
  String.append (String.append (String.append (String.append ("*   [") title) ("](")) link) (")")

/-- The fixed lines emitted before any chapter entry
(`setup_project.py` lines 489-494). -/
def tocHeaderLines : List String :=
  ["# LLM Coding Guide - Master Rules (v1.0.7+)",
   "",
   "This document serves as the entry point and Table of Contents for the Master List of Rules (MLR) for LLM-Assisted Coding.",
   "The rules are broken down into chapters, located in the `../rules/` directory.",
   "",
   "## Chapters",
   ""]

/-- `found_files` after the loop of lines 496-508: the fixed-list
filenames that exist in the directory, in fixed-list order. -/
def found_files (files : List String) : List String :=
  CHAPTER_FILES.filter (fun f => files.contains f)

/-- The primary-section entries emitted by the loop of lines 496-508. -/
def chapterLines (files : List String) : List String :=
  (found_files files).map
    (fun fn => entryLine (chapterTitle fn) (String.append ("../rules/") fn))

/-- `rules_dir.glob('*.md')` (line 511): the `.md` files present. -/
def mdGlob (files : List String) : List String :=
  files.filter (fun f => pyEndsWith f (".md"))

/-- `other_files` (line 511): `.md` files not emitted in the primary
section, sorted lexicographically. -/
def other_files (files : List String) : List String :=
  sortStrings ((mdGlob files).filter (fun f => !((found_files files).contains f)))

/-- The secondary-section lines (lines 512-518): nothing when
`other_files` is empty, otherwise a blank line, the "### Other Files"
heading and one entry per file. -/
def otherLines (files : List String) : List String :=
  if other_files files = [] then []
  else
    "" :: "### Other Files" ::
      (other_files files).map
        (fun fn => entryLine (otherTitle fn) (String.append ("../rules/") fn))

/-- `generate_toc_content` (lines 487-522), as a function of the
directory listing: all lines joined with newlines, with a final blank
line appended before the join. -/
def generate_toc_content (files : List String) : String :=
  String.intercalate ("\n")
    (tocHeaderLines ++ chapterLines files ++ otherLines files ++ [""])

example : chapterTitle ("00-Introduction.md") = "Introduction" := by decide

example :
    chapterTitle ("2-Security-Non-Negotiable-Foundations.md")
      = "2. Security Non Negotiable Foundations" := by decide

/-- `GITIGNORE_CONTENT` (literal template payload from `scripts/setup_project.py`). -/
def GITIGNORE_CONTENT : String :=
  String.intercalate ("\n")
   ["",
    "# Byte-compiled / optimized / DLL files",
    "__pycache__/",
    "*.py[cod]",
    "*$py.class",
    "",
    "# C extensions",
    "*.so",
    "",
    "# Distribution / packaging",
    ".Python",
    "build/",
    "develop-eggs/",
    "dist/",
    "downloads/",
    "eggs/",
    ".eggs/",
    "lib/",
    "lib64/",
    "parts/",
    "sdist/",
    "var/",
    "wheels/",
    "pip-wheel-metadata/",
    "share/python-wheels/",
    "*.egg-info/",
    ".installed.cfg",
    "*.egg",
    "MANIFEST",
    "",
    "# PyInstaller",
    "#  Usually these files are written by a python script from a template",
    "#  before PyInstaller builds the exe, so as to inject date/version info into it.",
    "*.manifest",
    "*.spec",
    "",
    "# Installer logs",
    "pip-log.txt",
    "pip-delete-this-directory.txt",
    "",
    "# Unit test / coverage reports",
    "htmlcov/",
    ".tox/",
    ".nox/",
    ".coverage",
    ".coverage.*",
    ".cache",
    "nosetests.xml",
    "coverage.xml",
    "*.cover",
    "*.py,cover",
    ".hypothesis/",
    ".pytest_cache/",
    "cover/",
    "",
    "# Translations",
    "*.mo",
    "*.pot",
    "",
    "# Django stuff:",
    "*.log",
    "local_settings.py",
    "db.sqlite3",
    "db.sqlite3-journal",
    "",
    "# Flask stuff:",
    "instance/",
    ".webassets-cache",
    "",
    "# Scrapy stuff:",
    ".scrapy",
    "",
    "# Sphix documentation",
    "docs/_build/",
    "",
    "# Environments",
    ".env",
    ".venv",
    "env/",
    "venv/",
    "ENV/",
    "env.bak/",
    "venv.bak/",
    "",
    "# Spyder project settings",
    ".spyderproject",
    ".spyproject",
    "",
    "# Rope project settings",
    ".ropeproject",
    "",
    "# mkdocs documentation",
    "/site",
    "",
    "# mypy",
    ".mypy_cache/",
    ".dmypy.json",
    "dmypy.json",
    "",
    "# Pyre type checker",
    ".pyre/",
    "",
    "# pytype static analysis results",
    ".pytype/",
    "",
    "# Cython debug symbols",
    "cython_debug/",
    "",
    "# VS Code",
    ".vscode/*",
    "!.vscode/settings.json",
    "!.vscode/tasks.json",
    "!.vscode/launch.json",
    "!.vscode/extensions.json",
    "*.code-workspace",
    "",
    "# IDE specific files",
    ".idea/",
    "*.iml",
    "*.ipr",
    "*.iws",
    "",
    "# OS generated files",
    ".DS_Store",
    "Thumbs.db",
    "",
    "# Node modules (for linters etc)",
    "node_modules/",
    "npm-debug.log*",
    "yarn-debug.log*",
    "yarn-error.log*",
    "package-lock.json # Often committed, but can ignore if desired",
    "yarn.lock # Often committed, but can ignore if desired",
    "",
    "# Markdown Lint",
    "*.result.json",
    ""]

/-- `GITATTRIBUTES_CONTENT` (literal template payload from `scripts/setup_project.py`). -/
def GITATTRIBUTES_CONTENT : String :=
  String.intercalate ("\n")
   ["",
    "# Set default behavior for all files",
    "* text=auto eol=lf",
    "",
    "# Explicitly declare text files you want to always normalize and convert to LF",
    "*.txt text eol=lf",
    "*.md text eol=lf",
    "*.py text eol=lf",
    "*.js text eol=lf",
    "*.json text eol=lf",
    "*.jsonc text eol=lf",
    "*.yaml text eol=lf",
    "*.yml text eol=lf",
    "*.sh text eol=lf",
    "*.gitignore text eol=lf",
    "*.gitattributes text eol=lf",
    "",
    "# Declare files that will always have LF line endings on checkout",
    "*.sh eol=lf",
    "",
    "# Denote all files that are truly binary and should not be modified",
    "*.png binary",
    "*.jpg binary",
    "*.jpeg binary",
    "*.gif binary",
    "*.pdf binary",
    ""]

/-- `VSCODE_SETTINGS_CONTENT` (literal template payload from `scripts/setup_project.py`). -/
def VSCODE_SETTINGS_CONTENT : String :=
  String.intercalate ("\n")
   ["",
    "\x7b",
    "  \"editor.formatOnSave\": true,",
    "  \"editor.defaultFormatter\": \"esbenp.prettier-vscode\", // General purpose, works well for md",
    "  \"[markdown]\": \x7b",
    "    \"editor.defaultFormatter\": \"DavidAnson.vscode-markdownlint\", // Specific Markdown formatter/linter",
    "    \"editor.wordWrap\": \"on\",",
    "    \"editor.quickSuggestions\": \x7b",
    "      \"other\": true,",
    "      \"comments\": true,",
    "      \"strings\": true",
    "    \x7d",
    "  \x7d,",
    "  \"[python]\": \x7b",
    "    \"editor.defaultFormatter\": \"ms-python.black-formatter\", // Or ruff, etc.",
    "    \"editor.formatOnSave\": true,",
    "    \"editor.codeActionsOnSave\": \x7b",
    "        \"source.organizeImports\": \"explicit\" // Consider using Ruff for this",
    "    \x7d",
    "  \x7d,",
    "  \"files.eol\": \"\\n\", // Ensure LF line endings",
    "  \"files.insertFinalNewline\": true,",
    "  \"files.trimTrailingWhitespace\": true,",
    "  \"search.exclude\": \x7b",
    "    \"**/node_modules\": true,",
    "    \"**/bower_components\": true,",
    "    \"**/*.code-search\": true,",
    "    \"**/__pycache__\": true,",
    "    \"**/.venv\": true,",
    "    \"**/venv\": true",
    "  \x7d,",
    "  \"workbench.editor.untitled.hint\": \"hidden\",",
    "  \"python.analysis.typeCheckingMode\": \"basic\", // Or \"strict\"",
    "  \"python.linting.enabled\": true, // General Python linting",
    "  \"python.linting.pylintEnabled\": false, // Example: disable pylint if using ruff/flake8",
    "  \"python.linting.flake8Enabled\": true, // Example: enable flake8",
    "   // Consider adding Ruff settings if using ruff",
    "  // \"ruff.lint.args\": [],",
    "  // \"ruff.format.args\": [],",
    "  // \"[python]\": \x7b",
    "  //   \"editor.defaultFormatter\": \"charliermarsh.ruff\",",
    "  //   \"editor.codeActionsOnSave\": \x7b",
    "  //      \"source.fixAll\": true,",
    "  //      \"source.organizeImports\": true",
    "  //   \x7d",
    "  // \x7d,",
    "",
    "  // Recommendations tie into settings",
    "  \"recommendations\": [",
    "    \"ms-python.python\",",
    "    \"ms-python.vscode-pylance\", // Language server",
    "    \"ms-python.black-formatter\", // Formatter",
    "    \"ms-python.flake8\", // Linter (or use Ruff)",
    "    // \"charliermarsh.ruff\", // Alternative Linter/Formatter",
    "    \"DavidAnson.vscode-markdownlint\", // Markdown linting",
    "    \"yzhang.markdown-all-in-one\", // Markdown utilities",
    "    \"bierner.markdown-preview-github-styles\", // Preview",
    "    \"esbenp.prettier-vscode\", // General formatter",
    "    \"gitHub.vscode-pull-request-github\", // GitHub integration",
    "    \"eamodio.gitlens\" // Git supercharger",
    "  ]",
    "\x7d",
    ""]

/-- `MARKDOWNLINT_CONFIG_CONTENT` (literal template payload from `scripts/setup_project.py`). -/
def MARKDOWNLINT_CONFIG_CONTENT : String :=
  String.intercalate ("\n")
   ["",
    "\x7b",
    "  // Default markdownlint configuration",
    "  \"default\": true,",
    "  // Example: Disable line length rule (often debated)",
    "  \"MD013\": false,",
    "  // Example: Allow inline HTML (use with caution)",
    "  \"MD033\": false,",
    "  // Example: Allow duplicate headings in different sections",
    "  \"MD024\": \x7b",
    "    \"allow_different_nesting\": true",
    "  \x7d,",
    "  // Enforce code block language specification",
    "  \"MD040\": true,",
    "  // No hard tabs",
    "  \"MD010\": true,",
    "  // Add other rules overrides as needed based on your style preferences",
    "  // See https://github.com/DavidAnson/markdownlint/blob/main/schema/.markdownlint.jsonc",
    "\x7d",
    ""]

/-- `README_CONTENT_TEMPLATE` (literal template payload from `scripts/setup_project.py`). -/
def README_CONTENT_TEMPLATE : String :=
  String.intercalate ("\n")
   ["",
    "# Rules-LLM-Coding Project",
    "",
    "This repository serves as the central hub for the Master List of Rules (MLR) system designed to guide and automate best practices in LLM-assisted software development.",
    "",
    "## Purpose",
    "",
    "- **Centralize:** Provides a single source of truth for coding rules, broken down by topic.",
    "- **Maintain:** Ensures the guide is version-controlled, reviewable, consistently formatted, and easy to navigate.",
    "- **Automate:** Includes setup scripts and CI checks (Markdown linting) for maintainability.",
    "- **Evolve:** Establishes a foundation to potentially add checklists, templates, and more complex tooling later.",
    "",
    "## Structure (Current)",
    "",
    "- `rules/`: Contains the core Master List Rule chapters as individual Markdown files (v1.0.7+).",
    "- `docs/LLM_CODING_GUIDE.md`: An entry point/Table of Contents linking to the chapters in `rules/`.",
    "- `docs/SETUP_GUIDE.md`: Instructions on setting up this repository locally and using the automation script.",
    "- `scripts/setup_project.py`: Python script to automate local setup and standardization.",
    "- `.vscode/`: Recommended VS Code settings (linting, formatting).",
    "- `.github/workflows/`: GitHub Actions workflows (e.g., Markdown linting).",
    "- `.markdownlint.jsonc`: Configuration for the Markdown linter.",
    "- `.gitignore`, `.gitattributes`: Standard Git configuration files.",
    "- `README.md`: This file - overview of the repository.",
    "- `.venv/`: Python virtual environment directory (created locally, ignored by Git).",
    "",
    "## Getting Started (for Maintainers)",
    "",
    "1.  **Prerequisites:** Ensure Git, Python 3.8+, and Node.js (with npm) are installed. Using WSL on Windows is highly recommended.",
    "2.  **Clone:** `git clone https://github.com/JackovAlltrades/Rules-LLM-Coding.git`",
    "3.  **Navigate:** `cd Rules-LLM-Coding`",
    "4.  **Run Setup Script (First Time / Updates):**",
    "    *   Place the `setup_project.py` script in this directory (if not already present).",
    "    *   Run it:",
    "        ```bash",
    "        python ./setup_project.py",
    "        ```",
    "    *   This sets up/updates `.venv`, config files, directories, and the Table of Contents file.",
    "5.  **Activate Environment:** `source .venv/bin/activate`",
    "6.  **Review & Commit:** Review the changes made by the script (`git status`, `git diff`), then stage and commit:",
    "    ```bash",
    "    git status",
    "    git add .",
    "    git commit -m \"Initialize/Update project structure via setup script\"",
    "    ```",
    "7.  **Push Branches:** Push `main` and `develop` (if newly created): `git push -u origin main develop`",
    "8.  **Set Default Branch:** On GitHub, set the default branch to `develop`.",
    "9.  **Work on `develop`:** `git checkout develop` for making changes (usually on feature branches).",
    "",
    "## Navigating the Guide",
    "",
    "Start with `docs/LLM_CODING_GUIDE.md` which links to each chapter in the `rules/` directory.",
    "",
    "## Maintenance and Updates",
    "",
    "*   **Guide Content:** Edit the individual `.md` files within the `rules/` directory.",
    "*   **Workflow:** Use feature branches -> Pull Requests -> `develop` -> merge to `main` for releases.",
    "*   **Automation:** The GitHub Action lints Markdown files in `rules/` and `docs/` on pushes/PRs.",
    "",
    "## Future Expansions (Potential)",
    "",
    "This structure can be expanded later to include:",
    "- `checklists/`",
    "- `templates/`",
    "- `tools/` (Python utilities)",
    "- `examples/`",
    ""]

/-- `SETUP_GUIDE_CONTENT` (literal template payload from `scripts/setup_project.py`). -/
def SETUP_GUIDE_CONTENT : String :=
  String.intercalate ("\n")
   ["",
    "# Project Setup Guide (for Maintainers)",
    "",
    "This guide explains how to use the `setup_project.py` script to initialize or update the standard structure and configuration files within your local clone of the `Rules-LLM-Coding` repository.",
    "",
    "**Run this script from the root directory of your cloned repository.**",
    "",
    "## Prerequisites",
    "",
    "1.  **Git:** Ensure Git is installed.",
    "2.  **Python:** Ensure Python 3.8 or higher is installed.",
    "3.  **Node.js & npm:** Ensure Node.js (includes npm) is installed (for Markdown linting setup).",
    "4.  **WSL (Recommended):** Using Windows Subsystem for Linux (Ubuntu) is highly recommended.",
    "5.  **Local Clone:** You must have already cloned the `https://github.com/JackovAlltrades/Rules-LLM-Coding.git` repository.",
    "6.  **Guide Files:** The core guide content should exist as individual `.md` files inside a `rules/` subdirectory within your clone.",
    "",
    "## Running the Setup Script",
    "",
    "1.  **Place Script:** Make sure `setup_project.py` is in the root of your cloned `Rules-LLM-Coding` directory (e.g., `/mnt/c/MyProjects-25/Rules-LLM-Coding/`).",
    "2.  **Open Terminal:** Open your terminal (WSL recommended) **inside** the `Rules-LLM-Coding` directory.",
    "3.  **Run the Script:** Execute the script using Python. It no longer takes a `--source_guide` argument.",
    "",
    "    ```bash",
    "    # Make sure you are INSIDE the Rules-LLM-Coding directory",
    "    python ./setup_project.py",
    "    ```",
    "",
    "## What the Script Does (Automation)",
    "",
    "*   **Checks Prerequisites:** Verifies Git, Python, and npm.",
    "*   **Validates Location:** Ensures it\x27s running inside a Git repository and that the `rules/` directory exists.",
    "*   **Creates Structure:** Creates missing directories (`docs`, `.vscode`, `scripts`, `.github/workflows`).",
    "*   **Writes/Overwrites Configs:** Creates or **overwrites** common config/docs files (`.gitignore`, `.gitattributes`, `README.md`, `docs/SETUP_GUIDE.md`, `.vscode/settings.json`, `.markdownlint.jsonc`, `.github/workflows/markdown-lint.yml`) with standard versions. **Existing files *will* be replaced.**",
    "*   **Generates TOC:** Creates/overwrites `docs/LLM_CODING_GUIDE.md` to act as a Table of Contents, linking to the files found in the `rules/` directory.",
    "*   **Copies Itself:** Copies `setup_project.py` into the `scripts/` directory.",
    "*   **Creates Virtual Env:** Creates `./.venv` if needed.",
    "*   **Installs Lint Tool:** Attempts global install of `markdownlint-cli`.",
    "*   **Creates `develop` Branch:** Creates the branch locally if it doesn\x27t exist.",
    "",
    "## Manual Steps After Running the Script",
    "",
    "1.  **Activate Environment:** `source .venv/bin/activate`",
    "2.  **Review Changes:** Use `git status` and `git diff` to see modified files. Verify the Table of Contents (`docs/LLM_CODING_GUIDE.md`) looks correct.",
    "3.  **Stage and Commit:** `git add .` then `git commit -m \"Apply standard project setup/update\"`",
    "4.  **Push Branches:** `git push -u origin main` and `git push -u origin develop`",
    "5.  **Set Default Branch on GitHub:** Change default to `develop` via repository Settings > Branches.",
    "6.  **Switch Locally:** `git checkout develop`",
    "",
    "Now you are set up to maintain the guide chapters in the `rules/` directory using the recommended workflow.",
    ""]

/-- `GITHUB_WORKFLOW_CONTENT` (literal template payload from `scripts/setup_project.py`). -/
def GITHUB_WORKFLOW_CONTENT : String :=
  String.intercalate ("\n")
   ["",
    "name: Lint Markdown Files",
    "",
    "on:",
    "  push:",
    "    branches:",
    "      - main",
    "      - develop # Check pushes to develop",
    "  pull_request:",
    "    branches:",
    "      - main",
    "      - develop # Check PRs targeting main or develop",
    "",
    "jobs:",
    "  markdownlint:",
    "    name: Run Markdownlint",
    "    runs-on: ubuntu-latest",
    "    steps:",
    "      - name: Checkout code",
    "        uses: actions/checkout@v4",
    "",
    "      - name: Setup Node.js",
    "        uses: actions/setup-node@v4",
    "        with:",
    "          node-version: \x2720\x27 # Use a current LTS version",
    "",
    "      - name: Install markdownlint-cli",
    "        run: npm install -g markdownlint-cli # Install globally in the runner",
    "",
    "      - name: Run linter on Guide Chapters and Docs",
    "        # Check all .md files in rules/ and docs/ directories",
    "        # Use glob pattern. ** matches directories recursively.",
    "        run: markdownlint --config .markdownlint.jsonc \"rules/**/*.md\" \"docs/**/*.md\"",
    ""]


/-!
## Orchestration (`main`, lines 526-647)

`main` is a linear sequence of side-effecting steps.  We model the parts
of the world it consults as an `Env` record (tool availability, layout,
the chapter-directory listing, which filesystem operations would fail,
which optional resources already exist) and its observable side effects
as a trace of `Event`s, together with how the run terminates.

Faithfulness notes, traced from the source:
  * `run_command` (lines 436-461) re-raises `CalledProcessError` /
    `FileNotFoundError` when called with `check=True` (the default), so
    a failing invocation with `check=True` propagates out of `main`
    uncaught.  The virtual-environment creation (line 603) and the
    `git branch develop` creation (line 634) use the default
    `check=True`; the `npm install` (line 617) and `git branch --list`
    (line 630) pass `check=False`.
  * `create_file` (lines 474-483) catches `OSError` and re-raises, so a
    refused write propagates; the seven template writes (lines 568-574)
    are not guarded in `main`, while the table-of-contents write
    (lines 591-596) is inside `try/except` and only logs on failure.
  * The self-copy (lines 577-585) is inside `try/except Exception` and
    never aborts the run.
-/

/-- An observable side effect of the run: a directory creation (step 3),
a file write via `create_file`, the self-copy, or one of the external
process invocations of steps 5-7. -/
inductive Event where
  | mkdirE (path : String) : Event
  | writeE (path : String) (content : String) : Event
  | copyScriptE : Event
  | venvCreateE : Event
  | npmInstallE : Event
  | gitBranchListE : Event
  | gitBranchCreateE : Event
deriving DecidableEq

/-- How the process terminates: `sys.exit(code)`, an uncaught exception
(Python then terminates abnormally with a nonzero status), or normal
return from `main` (process exit status 0). -/
inductive Outcome where
  | exited (code : Nat) : Outcome
  | raised : Outcome
  | completed : Outcome
deriving DecidableEq

/-- The state of the world `main` consults.  Boolean fields record what
the corresponding check or external invocation would report; the
`*_fails` lists name the paths whose `mkdir` / `create_file` would raise
`OSError`. -/
structure Env where
  python_ok : Bool
  git_ok : Bool
  npm_ok : Bool
  git_dir_exists : Bool
  rules_dir_exists : Bool
  rules_files : List String
  mkdir_fails : List String
  write_fails : List String
  script_copy_needed : Bool
  copy_ok : Bool
  venv_exists : Bool
  venv_create_ok : Bool
  npm_install_ok : Bool
  develop_exists : Bool
  branch_create_ok : Bool

/-- The four directories of step 3 (lines 561-564), in creation order. -/
def STEP3_DIRS : List String :=
  ["docs", "scripts", ".vscode", ".github/workflows"]

/-- The seven unconditional `create_file` calls of step 3
(lines 568-574), in order: destination path and payload. -/
def TEMPLATE_WRITES : List (String × String) :=
  [(".gitignore", GITIGNORE_CONTENT),
   (".gitattributes", GITATTRIBUTES_CONTENT),
   (".vscode/settings.json", VSCODE_SETTINGS_CONTENT),
   (".markdownlint.jsonc", MARKDOWNLINT_CONFIG_CONTENT),
   ("README.md", README_CONTENT_TEMPLATE),
   ("docs/SETUP_GUIDE.md", SETUP_GUIDE_CONTENT),
   (".github/workflows/markdown-lint.yml", GITHUB_WORKFLOW_CONTENT)]

/-- Destination of the generated table of contents (line 590). -/
def TOC_PATH : String := "docs/LLM_CODING_GUIDE.md"

/-- The step-3 `mkdir` sequence: stops at the first failing path
(`OSError` propagates), returning the events so far as the error. -/
def doMkdirs (env : Env) : List String → Except (List Event) (List Event)
  | [] => Except.ok []
  | p :: rest =>
    if p ∈ env.mkdir_fails then Except.error []
    else
      match doMkdirs env rest with
      | Except.error evs => Except.error (Event.mkdirE p :: evs)
      | Except.ok evs => Except.ok (Event.mkdirE p :: evs)

/-- The step-3 `create_file` sequence: stops at the first failing write
(`create_file` re-raises `OSError`), returning the events so far. -/
def doWrites (env : Env) : List (String × String) → Except (List Event) (List Event)
  | [] => Except.ok []
  | pc :: rest =>
    if pc.fst ∈ env.write_fails then Except.error []
    else
      match doWrites env rest with
      | Except.error evs => Except.error (Event.writeE pc.fst pc.snd :: evs)
      | Except.ok evs => Except.ok (Event.writeE pc.fst pc.snd :: evs)

/-- `main` (lines 526-647), here `mainRun`: terminating outcome and side-effect trace.

Step order follows the source exactly: prerequisite checks (python and
git mandatory, npm optional), layout checks (`.git` marker and `rules/`
directory), the four `mkdir`s, the seven template writes, the guarded
self-copy, the guarded table-of-contents generation and write, the
conditional venv creation (`check=True`: failure raises), the
best-effort npm install (`check=False`: failure only warns), the branch
listing (`check=False`) and the conditional branch creation
(`check=True`: failure raises). -/
def mainRun (env : Env) : Outcome × List Event :=
  if env.python_ok = false then (Outcome.exited 1, [])
  else if env.git_ok = false then (Outcome.exited 1, [])
  else if env.git_dir_exists = false then (Outcome.exited 1, [])
  else if env.rules_dir_exists = false then (Outcome.exited 1, [])
  else
    match doMkdirs env STEP3_DIRS with
    | Except.error evs => (Outcome.raised, evs)
    | Except.ok mkEvs =>
      match doWrites env TEMPLATE_WRITES with
      | Except.error wEvs => (Outcome.raised, mkEvs ++ wEvs)
      | Except.ok wEvs =>
        let copyEvs :=
          if env.script_copy_needed = true ∧ env.copy_ok = true
          then [Event.copyScriptE] else []
        let tocEvs :=
          if TOC_PATH ∈ env.write_fails then []
          else [Event.writeE TOC_PATH (generate_toc_content env.rules_files)]
        let pre := mkEvs ++ wEvs ++ copyEvs ++ tocEvs
        if env.venv_exists = false ∧ env.venv_create_ok = false then
          (Outcome.raised, pre ++ [Event.venvCreateE])
        else
          let venvEvs := if env.venv_exists = false then [Event.venvCreateE] else []
          let npmEvs := if env.npm_ok = true then [Event.npmInstallE] else []
          let afterNpm := pre ++ venvEvs ++ npmEvs ++ [Event.gitBranchListE]
          if env.develop_exists = false then
            if env.branch_create_ok = false then
              (Outcome.raised, afterNpm ++ [Event.gitBranchCreateE])
            else (Outcome.completed, afterNpm ++ [Event.gitBranchCreateE])
          else (Outcome.completed, afterNpm)

/-- The file writes in a trace, in order: (path, bytes written). -/
def writesOf (evs : List Event) : List (String × String) :=
  evs.filterMap (fun e =>
    match e with
    | Event.writeE p c => some (p, c)
    | _ => none)

/-- The state of the world after one full run that got past the venv
step: the venv and the `develop` branch now exist (assuming those steps
succeeded — the idempotence theorem assumes exactly that), and if the
self-copy was needed and succeeded, `scripts/setup_project.py` is now an
identical copy of the running script, so the next run's comparison at
line 581 skips the copy.  Every run recomputes its outputs; nothing the
script writes lands inside `rules/`, so the chapter listing is
unchanged, and the other fields of the world are untouched. -/
def updateEnv (env : Env) : Env :=
  { env with
    script_copy_needed := env.script_copy_needed && !env.copy_ok
    venv_exists := true
    develop_exists := true }

/-! ## Shared facts about the generator -/

/-- The fixed chapter list repeats no filename. -/
theorem chapter_files_nodup : CHAPTER_FILES.Nodup := by decide

/-- Membership in the emitted primary section. -/
theorem mem_found_files (files : List String) (f : String) :
    f ∈ found_files files ↔ f ∈ CHAPTER_FILES ∧ f ∈ files := by
  simp [found_files]

/-- Membership in the secondary-section file list. -/
theorem mem_other_files (files : List String) (f : String) :
    f ∈ other_files files ↔
      f ∈ files ∧ pyEndsWith f (".md") = true ∧ f ∉ found_files files := by
  unfold other_files sortStrings
  rw [(List.perm_insertionSort _ _).mem_iff]
  simp [mdGlob, List.mem_filter, and_assoc, and_comm]

/-- The secondary-section file list is sorted. -/
theorem other_files_sorted (files : List String) :
    (other_files files).Sorted (fun a b : String => a ≤ b) :=
  List.sorted_insertionSort _ _

/-! ## C1: the primary "Chapters" section -/

/-- C1: for a directory containing the subset `S` of the fixed chapter
list, the primary "Chapters" section has exactly one entry per member of
`S` (membership characterization plus no duplicates, and the entries are
the image of `found_files`), in the relative order of the fixed list
(`Sublist`), and no entry for any filename outside `S`. -/
theorem toc_chapters_section_exact (files : List String) :
    (∀ f, f ∈ found_files files ↔ f ∈ CHAPTER_FILES ∧ f ∈ files)
    ∧ (found_files files).Sublist CHAPTER_FILES
    ∧ (∀ f, f ∈ CHAPTER_FILES → f ∈ files → (found_files files).count f = 1)
    ∧ chapterLines files =
        (found_files files).map
          (fun fn => entryLine (chapterTitle fn) (String.append ("../rules/") fn)) := by
  refine ⟨mem_found_files files, List.filter_sublist _, ?_, rfl⟩
  intro f hc hf
  exact List.count_eq_one_of_mem (chapter_files_nodup.filter _)
    ((mem_found_files files f).mpr ⟨hc, hf⟩)

/-! ## C2: the secondary "Other Files" section -/

/-- C2: the secondary section lists exactly the `.md` files present in
the directory that the primary section did not emit, lexicographically
sorted and without duplicates; no filename appears in both sections, and
when the set is empty the "Other Files" heading is absent from the
document. -/
theorem toc_other_files_section_exact (files : List String) (hnd : files.Nodup) :
    (∀ f, f ∈ other_files files ↔
        f ∈ files ∧ pyEndsWith f (".md") = true ∧ f ∉ found_files files)
    ∧ (other_files files).Sorted (fun a b : String => a ≤ b)
    ∧ (other_files files).Nodup
    ∧ (∀ f, f ∈ other_files files → f ∉ found_files files)
    ∧ (other_files files = [] → otherLines files = [])
    ∧ (other_files files ≠ [] → "### Other Files" ∈ otherLines files)
    ∧ otherLines files =
        (if other_files files = [] then []
         else "" :: "### Other Files" ::
           (other_files files).map
             (fun fn => entryLine (otherTitle fn) (String.append ("../rules/") fn))) := by
  refine ⟨mem_other_files files, other_files_sorted files, ?_, ?_, ?_, ?_, rfl⟩
  · unfold other_files sortStrings
    rw [(List.perm_insertionSort _ _).nodup_iff]
    exact (hnd.filter _).filter _
  · intro f hf
    exact ((mem_other_files files f).mp hf).2.2
  · intro h
    simp [otherLines, h]
  · intro h
    simp [otherLines, h]

/-- Witness for C2 at a concrete directory listing. -/
theorem toc_other_files_section_exact_witness :
    (["zz-notes.md", "00-Introduction.md", "Alpha.md", "readme.txt"] : List String).Nodup
    ∧ ((∀ f, f ∈ other_files ["zz-notes.md", "00-Introduction.md", "Alpha.md", "readme.txt"] ↔
          f ∈ ["zz-notes.md", "00-Introduction.md", "Alpha.md", "readme.txt"]
            ∧ pyEndsWith f (".md") = true
            ∧ f ∉ found_files ["zz-notes.md", "00-Introduction.md", "Alpha.md", "readme.txt"])
        ∧ (other_files ["zz-notes.md", "00-Introduction.md", "Alpha.md", "readme.txt"]).Sorted
            (fun a b : String => a ≤ b)
        ∧ (other_files ["zz-notes.md", "00-Introduction.md", "Alpha.md", "readme.txt"]).Nodup
        ∧ (∀ f, f ∈ other_files ["zz-notes.md", "00-Introduction.md", "Alpha.md", "readme.txt"] →
            f ∉ found_files ["zz-notes.md", "00-Introduction.md", "Alpha.md", "readme.txt"])
        ∧ (other_files ["zz-notes.md", "00-Introduction.md", "Alpha.md", "readme.txt"] = [] →
            otherLines ["zz-notes.md", "00-Introduction.md", "Alpha.md", "readme.txt"] = [])
        ∧ (other_files ["zz-notes.md", "00-Introduction.md", "Alpha.md", "readme.txt"] ≠ [] →
            "### Other Files" ∈ otherLines ["zz-notes.md", "00-Introduction.md", "Alpha.md", "readme.txt"])
        ∧ otherLines ["zz-notes.md", "00-Introduction.md", "Alpha.md", "readme.txt"] =
            (if other_files ["zz-notes.md", "00-Introduction.md", "Alpha.md", "readme.txt"] = [] then []
             else "" :: "### Other Files" ::
               (other_files ["zz-notes.md", "00-Introduction.md", "Alpha.md", "readme.txt"]).map
                 (fun fn => entryLine (otherTitle fn) (String.append ("../rules/") fn)))) :=
  ⟨by decide,
   toc_other_files_section_exact ["zz-notes.md", "00-Introduction.md", "Alpha.md", "readme.txt"]
     (by decide)⟩

/-! ## C3: the primary-section title derivation -/

/-- C3 counterexample: the claim says the numeric chapter prefix of a
fixed-list filename is rendered as "N." in the title.  For
`00-Introduction.md` the chained replacements delete the prefix
entirely: the emitted entry's title is "Introduction", which contains no
digit at all (so no "N." rendering, under either reading "00." or
"0."). -/
theorem toc_title_beautification_cex :
    chapterLines ["00-Introduction.md"] = ["*   [Introduction](../rules/00-Introduction.md)"]
    ∧ chapterTitle ("00-Introduction.md") = "Introduction"
    ∧ chapterTitle ("00-Introduction.md") ≠ "00. Introduction"
    ∧ chapterTitle ("00-Introduction.md") ≠ "0. Introduction"
    ∧ ("Introduction" : String).data.any Char.isDigit = false := by decide

/-- C3 as amended: for the nine fixed-list filenames with prefixes
1-9 the title is the filename with the trailing `.md` stripped, hyphens
replaced by spaces and the leading digit N rendered as "N."; for
`00-Introduction.md` the `00` prefix (and the space left behind) is
removed entirely.  On the fixed list nothing else is altered: the table
below is the complete image of `CHAPTER_FILES` under the title
derivation. -/
theorem toc_title_table :
    CHAPTER_FILES.map chapterTitle =
      ["Introduction",
       "1. Using LLMs Effectively Safely The Core Interaction Loop",
       "2. Security Non Negotiable Foundations",
       "3. Code Quality Maintainability",
       "4. Testing Validation",
       "5. Performance Efficiency",
       "6. Architecture System Design",
       "7. Frontend UIUX Accessibility",
       "8. DevOps Infrastructure",
       "9. Specific Technologies Advanced Topics"] := by decide

/-! ## C6: determinism of the generator -/

/-- C6: the generated document is fully determined by the directory
snapshot.  The only non-fixed input is the directory listing, whose
enumeration order (`glob`) the filesystem does not fix; the generator
returns identical text for any two enumeration orders of the same
snapshot, because the primary section is driven by the fixed list and
the secondary section is sorted. -/
theorem toc_deterministic (l₁ l₂ : List String) (h : l₁.Perm l₂) :
    generate_toc_content l₁ = generate_toc_content l₂ := by
  have hff : found_files l₁ = found_files l₂ := by
    unfold found_files
    apply List.filter_congr
    intro f _
    apply Bool.coe_iff_coe.mp
    rw [List.elem_iff, List.elem_iff]
    exact h.mem_iff
  have hof : other_files l₁ = other_files l₂ := by
    unfold other_files sortStrings mdGlob
    rw [hff]
    exact List.eq_of_perm_of_sorted
      ((List.perm_insertionSort _ _).trans
        (((h.filter _).filter _).trans (List.perm_insertionSort _ _).symm))
      (List.sorted_insertionSort _ _) (List.sorted_insertionSort _ _)
  unfold generate_toc_content chapterLines otherLines
  rw [hff, hof]

/-- Witness for C6: two enumeration orders of one snapshot. -/
theorem toc_deterministic_witness :
    (["b-notes.md", "00-Introduction.md"] : List String).Perm
        ["00-Introduction.md", "b-notes.md"]
    ∧ generate_toc_content ["b-notes.md", "00-Introduction.md"]
        = generate_toc_content ["00-Introduction.md", "b-notes.md"] :=
  ⟨by decide, toc_deterministic _ _ (by decide)⟩

/-! ## C7: the empty chapter directory -/

set_option maxRecDepth 8192 in
/-- C7: on an empty directory the generator returns (normally — it is a
total function, and a missing expected chapter only skips that entry)
the document consisting of the fixed header line, the two fixed prose
lines, and an empty "Chapters" section: no list entries and no
"Other Files" heading. -/
theorem toc_empty_directory :
    generate_toc_content [] =
      "# LLM Coding Guide - Master Rules (v1.0.7+)\n\nThis document serves as the entry point and Table of Contents for the Master List of Rules (MLR) for LLM-Assisted Coding.\nThe rules are broken down into chapters, located in the `../rules/` directory.\n\n## Chapters\n\n"
    ∧ chapterLines [] = []
    ∧ otherLines [] = [] := by decide

/-! ## C10: the secondary-section title derivation -/

/-- C10: a secondary-section entry's title is derived only by removing
`.md` and replacing hyphens with spaces (`otherTitle`); the numeric
beautification of the primary section is not applied there, so a
filename with a numeric prefix (here `10-Extra-Chapter.md`, not on the
fixed list) gets title "10 Extra Chapter" in the secondary section while
the primary derivation would have produced "1. Extra Chapter". -/
theorem toc_other_title_plain :
    otherLines ["10-Extra-Chapter.md"] =
      ["", "### Other Files", "*   [10 Extra Chapter](../rules/10-Extra-Chapter.md)"]
    ∧ otherTitle ("10-Extra-Chapter.md") = "10 Extra Chapter"
    ∧ chapterTitle ("10-Extra-Chapter.md") = "1. Extra Chapter"
    ∧ otherTitle ("10-Extra-Chapter.md") ≠ chapterTitle ("10-Extra-Chapter.md") := by decide

/-! ## Shared facts about the orchestration -/

/-- When no step-3 directory creation fails, the `mkdir` sequence
performs every creation in order. -/
theorem doMkdirs_ok (env : Env) (l : List String)
    (h : ∀ p ∈ l, p ∉ env.mkdir_fails) :
    doMkdirs env l = Except.ok (l.map Event.mkdirE) := by
  induction l with
  | nil => rfl
  | cons p rest ih =>
    unfold doMkdirs
    rw [if_neg (h p (List.mem_cons_self p rest)),
      ih (fun q hq => h q (List.mem_cons_of_mem p hq))]
    rfl

/-- When no template write fails, the `create_file` sequence performs
every write in order. -/
theorem doWrites_ok (env : Env) (l : List (String × String))
    (h : ∀ pc ∈ l, pc.fst ∉ env.write_fails) :
    doWrites env l = Except.ok (l.map (fun pc => Event.writeE pc.fst pc.snd)) := by
  induction l with
  | nil => rfl
  | cons pc rest ih =>
    unfold doWrites
    rw [if_neg (h pc (List.mem_cons_self pc rest)),
      ih (fun qc hq => h qc (List.mem_cons_of_mem pc hq))]
    rfl

/-- When some template write fails, the `create_file` sequence raises,
and every event it did perform is one of the listed writes. -/
theorem doWrites_error (env : Env) (l : List (String × String))
    (h : ∃ pc ∈ l, pc.fst ∈ env.write_fails) :
    ∃ evs, doWrites env l = Except.error evs
      ∧ ∀ e ∈ evs, ∃ pc ∈ l, e = Event.writeE pc.fst pc.snd := by
  induction l with
  | nil => simp at h
  | cons pc rest ih =>
    by_cases hp : pc.fst ∈ env.write_fails
    · exact ⟨[], by simp [doWrites, hp], by simp⟩
    · have hrest : ∃ qc ∈ rest, qc.fst ∈ env.write_fails := by
        rcases h with ⟨qc, hqc, hf⟩
        rcases List.mem_cons.mp hqc with rfl | hm
        · exact absurd hf hp
        · exact ⟨qc, hm, hf⟩
      rcases ih hrest with ⟨evs, heq, hshape⟩
      refine ⟨Event.writeE pc.fst pc.snd :: evs, by simp [doWrites, hp, heq], ?_⟩
      intro e he
      rcases List.mem_cons.mp he with rfl | hm
      · exact ⟨pc, List.mem_cons_self _ _, rfl⟩
      · rcases hshape e hm with ⟨qc, hqc, rfl⟩
        exact ⟨qc, List.mem_cons_of_mem _ hqc, rfl⟩

/-- Closed form of a run that gets past the preconditions, the
directory creations, the template writes and the venv step: the outcome
is `completed` unless the branch creation is reached and fails, and the
trace is the concatenation of the step segments in source order. -/
theorem mainRun_form (env : Env)
    (hp : env.python_ok = true) (hg : env.git_ok = true)
    (hgd : env.git_dir_exists = true) (hrd : env.rules_dir_exists = true)
    (hmk : ∀ p ∈ STEP3_DIRS, p ∉ env.mkdir_fails)
    (hw : ∀ pc ∈ TEMPLATE_WRITES, pc.fst ∉ env.write_fails)
    (hv : env.venv_exists = true ∨ env.venv_create_ok = true) :
    mainRun env =
      ((if env.develop_exists = false ∧ env.branch_create_ok = false
        then Outcome.raised else Outcome.completed),
       STEP3_DIRS.map Event.mkdirE
       ++ TEMPLATE_WRITES.map (fun pc => Event.writeE pc.fst pc.snd)
       ++ (if env.script_copy_needed = true ∧ env.copy_ok = true
           then [Event.copyScriptE] else [])
       ++ (if TOC_PATH ∈ env.write_fails then []
           else [Event.writeE TOC_PATH (generate_toc_content env.rules_files)])
       ++ (if env.venv_exists = false then [Event.venvCreateE] else [])
       ++ (if env.npm_ok = true then [Event.npmInstallE] else [])
       ++ [Event.gitBranchListE]
       ++ (if env.develop_exists = false then [Event.gitBranchCreateE] else [])) := by
  have hvc : ¬(env.venv_exists = false ∧ env.venv_create_ok = false) := by
    rcases hv with h | h <;> simp [h]
  unfold mainRun
  rw [hp, hg, hgd, hrd, doMkdirs_ok env STEP3_DIRS hmk, doWrites_ok env TEMPLATE_WRITES hw]
  by_cases hd : env.develop_exists = false <;>
    by_cases hb : env.branch_create_ok = false <;>
      simp [hvc, hd, hb, List.append_assoc]

/-- A fully healthy world: tools present, layout present, filesystem
cooperative, fresh clone (no venv, no `develop` branch, script copy
needed). -/
def envOk : Env :=
  { python_ok := true
    git_ok := true
    npm_ok := true
    git_dir_exists := true
    rules_dir_exists := true
    rules_files := ["00-Introduction.md"]
    mkdir_fails := []
    write_fails := []
    script_copy_needed := true
    copy_ok := true
    venv_exists := false
    venv_create_ok := true
    npm_install_ok := true
    develop_exists := false
    branch_create_ok := true }

/-- `envOk` except the working directory has no `.git` marker. -/
def envNoGitDir : Env := { envOk with git_dir_exists := false }

/-- `envOk` except the first template write (`.gitignore`) fails. -/
def envTemplateWriteFails : Env := { envOk with write_fails := [".gitignore"] }

/-- `envOk` except the table-of-contents write fails. -/
def envTocWriteFails : Env := { envOk with write_fails := ["docs/LLM_CODING_GUIDE.md"] }

/-- `envOk` except creating the virtual environment fails. -/
def envVenvFails : Env := { envOk with venv_create_ok := false }

/-- `envOk` except creating the `develop` branch fails. -/
def envBranchFails : Env := { envOk with branch_create_ok := false }

/-! ## C8: missing layout precondition aborts before any write -/

/-- C8: a run started without the `.git` marker directory or without
the `rules/` chapter-source directory exits with code 1 during the
layout checks, before step 3: its trace is empty — no directory
creation and no file write happens. -/
theorem precondition_failure_aborts_before_writes (env : Env)
    (h : env.git_dir_exists = false ∨ env.rules_dir_exists = false) :
    (mainRun env).fst = Outcome.exited 1 ∧ (mainRun env).snd = [] := by
  unfold mainRun
  rcases h with h | h <;>
    cases hp : env.python_ok <;>
      cases hg : env.git_ok <;>
        cases hgd : env.git_dir_exists <;>
          simp_all

/-- Witness for C8: the healthy world minus the `.git` marker. -/
theorem precondition_failure_aborts_before_writes_witness :
    (envNoGitDir.git_dir_exists = false ∨ envNoGitDir.rules_dir_exists = false)
    ∧ (mainRun envNoGitDir).fst = Outcome.exited 1
    ∧ (mainRun envNoGitDir).snd = [] :=
  ⟨Or.inl rfl, precondition_failure_aborts_before_writes envNoGitDir (Or.inl rfl)⟩

/-- None of the seven template destinations is the table-of-contents
destination. -/
theorem template_paths_ne_toc : ∀ pc ∈ TEMPLATE_WRITES, pc.fst ≠ TOC_PATH := by decide

/-- `writesOf` distributes over trace concatenation. -/
theorem writesOf_append (a b : List Event) : writesOf (a ++ b) = writesOf a ++ writesOf b :=
  List.filterMap_append a b _

/-- The step-3 directory creations write no file. -/
theorem writesOf_mkdirs : writesOf (STEP3_DIRS.map Event.mkdirE) = [] := rfl

/-- The step-3 template writes write exactly the template payloads. -/
theorem writesOf_templates :
    writesOf (TEMPLATE_WRITES.map (fun pc => Event.writeE pc.fst pc.snd)) = TEMPLATE_WRITES := rfl

/-- The branch listing writes no file. -/
theorem writesOf_branchList : writesOf [Event.gitBranchListE] = [] := rfl

/-- The empty trace writes no file. -/
theorem writesOf_nil : writesOf [] = [] := rfl

/-- The conditional self-copy writes no file. -/
theorem writesOf_copy_ite (c : Prop) [Decidable c] :
    writesOf (if c then [Event.copyScriptE] else []) = [] := by
  split <;> rfl

/-- The conditional venv creation writes no file. -/
theorem writesOf_venv_ite (c : Prop) [Decidable c] :
    writesOf (if c then [Event.venvCreateE] else []) = [] := by
  split <;> rfl

/-- The conditional npm install writes no file. -/
theorem writesOf_npm_ite (c : Prop) [Decidable c] :
    writesOf (if c then [Event.npmInstallE] else []) = [] := by
  split <;> rfl

/-- The conditional branch creation writes no file. -/
theorem writesOf_branch_ite (c : Prop) [Decidable c] :
    writesOf (if c then [Event.gitBranchCreateE] else []) = [] := by
  split <;> rfl

/-! ## C4: behaviour on a refused mandatory write -/

/-- C4 as amended.  First half: a failing template write (any of the
seven `create_file` calls of step 3) propagates — the run raises and no
later step executes: no self-copy, no venv creation, no npm install, no
branch listing or creation, and no table-of-contents write.  Second
half: a failing table-of-contents write, by contrast, is caught
(lines 591-596): the run still completes, exactly the seven template
files were written, the table of contents was not, and a later step
(the branch listing) still executes. -/
theorem write_failure_behavior :
    (∀ env : Env,
      env.python_ok = true → env.git_ok = true →
      env.git_dir_exists = true → env.rules_dir_exists = true →
      (∀ p ∈ STEP3_DIRS, p ∉ env.mkdir_fails) →
      (∃ pc ∈ TEMPLATE_WRITES, pc.fst ∈ env.write_fails) →
      (mainRun env).fst = Outcome.raised
      ∧ Event.copyScriptE ∉ (mainRun env).snd
      ∧ Event.venvCreateE ∉ (mainRun env).snd
      ∧ Event.npmInstallE ∉ (mainRun env).snd
      ∧ Event.gitBranchListE ∉ (mainRun env).snd
      ∧ Event.gitBranchCreateE ∉ (mainRun env).snd
      ∧ (∀ c, Event.writeE TOC_PATH c ∉ (mainRun env).snd))
    ∧ (∀ env : Env,
      env.python_ok = true → env.git_ok = true →
      env.git_dir_exists = true → env.rules_dir_exists = true →
      (∀ p ∈ STEP3_DIRS, p ∉ env.mkdir_fails) →
      (∀ pc ∈ TEMPLATE_WRITES, pc.fst ∉ env.write_fails) →
      TOC_PATH ∈ env.write_fails →
      (env.venv_exists = true ∨ env.venv_create_ok = true) →
      (env.develop_exists = true ∨ env.branch_create_ok = true) →
      (mainRun env).fst = Outcome.completed
      ∧ writesOf (mainRun env).snd = TEMPLATE_WRITES
      ∧ (∀ c, (TOC_PATH, c) ∉ writesOf (mainRun env).snd)
      ∧ Event.gitBranchListE ∈ (mainRun env).snd) := by
  constructor
  · intro env hp hg hgd hrd hmk hex
    rcases doWrites_error env TEMPLATE_WRITES hex with ⟨evs, heq, hshape⟩
    have hmain : mainRun env = (Outcome.raised, STEP3_DIRS.map Event.mkdirE ++ evs) := by
      unfold mainRun
      rw [hp, hg, hgd, hrd, doMkdirs_ok env STEP3_DIRS hmk, heq]
      simp
    have hae : ∀ e ∈ STEP3_DIRS.map Event.mkdirE ++ evs,
        (∃ p, Event.mkdirE p = e) ∨ ∃ pc ∈ TEMPLATE_WRITES, e = Event.writeE pc.fst pc.snd := by
      intro e he
      rcases List.mem_append.mp he with hm | hm
      · rcases List.mem_map.mp hm with ⟨p, _, hpe⟩
        exact Or.inl ⟨p, hpe⟩
      · exact Or.inr (hshape e hm)
    rw [hmain]
    refine ⟨rfl, ?_, ?_, ?_, ?_, ?_, ?_⟩
    · intro hmem
      rcases hae _ hmem with ⟨p, hpe⟩ | ⟨pc, _, hpe⟩ <;> exact Event.noConfusion hpe
    · intro hmem
      rcases hae _ hmem with ⟨p, hpe⟩ | ⟨pc, _, hpe⟩ <;> exact Event.noConfusion hpe
    · intro hmem
      rcases hae _ hmem with ⟨p, hpe⟩ | ⟨pc, _, hpe⟩ <;> exact Event.noConfusion hpe
    · intro hmem
      rcases hae _ hmem with ⟨p, hpe⟩ | ⟨pc, _, hpe⟩ <;> exact Event.noConfusion hpe
    · intro hmem
      rcases hae _ hmem with ⟨p, hpe⟩ | ⟨pc, _, hpe⟩ <;> exact Event.noConfusion hpe
    · intro c hmem
      rcases hae _ hmem with ⟨p, hpe⟩ | ⟨pc, hpc, hpe⟩
      · exact Event.noConfusion hpe
      · injection hpe with h1 _
        exact template_paths_ne_toc pc hpc h1.symm
  · intro env hp hg hgd hrd hmk hw htoc hv hbr
    have hform := mainRun_form env hp hg hgd hrd hmk hw hv
    rw [hform]
    refine ⟨?_, ?_, ?_, ?_⟩
    · rcases hbr with h | h <;> simp [h]
    · simp only [writesOf_append, writesOf_mkdirs, writesOf_templates, writesOf_branchList,
        writesOf_copy_ite, writesOf_venv_ite, writesOf_npm_ite, writesOf_branch_ite,
        if_pos htoc, writesOf_nil]
      simp
    · intro c hmem
      simp only [writesOf_append, writesOf_mkdirs, writesOf_templates, writesOf_branchList,
        writesOf_copy_ite, writesOf_venv_ite, writesOf_npm_ite, writesOf_branch_ite,
        if_pos htoc, writesOf_nil] at hmem
      simp only [List.append_nil, List.nil_append] at hmem
      exact template_paths_ne_toc _ hmem rfl
    · simp [List.mem_append]

/-- C4 counterexample for the claim as stated: with only the
table-of-contents write refused, the run does not abort — it completes,
later steps (venv creation, npm install, branch listing and creation)
all execute, and exactly the seven template files get written. -/
theorem toc_write_failure_continues_cex :
    (mainRun envTocWriteFails).fst = Outcome.completed
    ∧ Event.venvCreateE ∈ (mainRun envTocWriteFails).snd
    ∧ Event.npmInstallE ∈ (mainRun envTocWriteFails).snd
    ∧ Event.gitBranchCreateE ∈ (mainRun envTocWriteFails).snd
    ∧ writesOf (mainRun envTocWriteFails).snd = TEMPLATE_WRITES :=
  ⟨rfl, by decide, by decide, by decide, rfl⟩

/-- Witness for C4 at concrete worlds: a refused `.gitignore` write
aborts before the venv step, while a refused table-of-contents write
still reaches the branch listing. -/
theorem write_failure_behavior_witness :
    ((mainRun envTemplateWriteFails).fst = Outcome.raised
      ∧ Event.venvCreateE ∉ (mainRun envTemplateWriteFails).snd)
    ∧ ((mainRun envTocWriteFails).fst = Outcome.completed
      ∧ Event.gitBranchListE ∈ (mainRun envTocWriteFails).snd) :=
  ⟨⟨(write_failure_behavior.1 envTemplateWriteFails rfl rfl rfl rfl (by decide) (by decide)).1,
    (write_failure_behavior.1 envTemplateWriteFails rfl rfl rfl rfl (by decide) (by decide)).2.2.1⟩,
   ⟨(write_failure_behavior.2 envTocWriteFails rfl rfl rfl rfl (by decide) (by decide)
      (by decide) (Or.inr rfl) (Or.inr rfl)).1,
    (write_failure_behavior.2 envTocWriteFails rfl rfl rfl rfl (by decide) (by decide)
      (by decide) (Or.inr rfl) (Or.inr rfl)).2.2.2⟩⟩

/-! ## C5: exit codes -/

/-- A missing mandatory tool or missing layout precondition exits with
code 1 before any side effect. -/
theorem mainRun_exit1 (env : Env)
    (h : env.python_ok = false ∨ env.git_ok = false
      ∨ env.git_dir_exists = false ∨ env.rules_dir_exists = false) :
    (mainRun env).fst = Outcome.exited 1 ∧ (mainRun env).snd = [] := by
  unfold mainRun
  rcases h with h | h | h | h <;>
    cases hp : env.python_ok <;>
      cases hg : env.git_ok <;>
        cases hgd : env.git_dir_exists <;>
          simp_all

/-- C5 as amended.  (i) Missing python, missing git, or a missing
layout precondition exits with code 1.  (ii) When the filesystem steps
succeed and the venv and branch steps succeed or are unnecessary, the
run completes (process exit status 0) — with no constraint on npm
availability or on the npm install succeeding, so a linter-installation
failure is indeed tolerated.  But contrary to the claim, failures of
the other two "optional" steps are not tolerated: (iii) a failing venv
creation raises (`run_command` re-raises under its default
`check=True`), and (iv) so does a failing `git branch develop`; both
terminate the process abnormally (nonzero status), not with exit
code 0. -/
theorem exit_code_behavior :
    (∀ env : Env,
      (env.python_ok = false ∨ env.git_ok = false
        ∨ env.git_dir_exists = false ∨ env.rules_dir_exists = false) →
      (mainRun env).fst = Outcome.exited 1)
    ∧ (∀ env : Env,
      env.python_ok = true → env.git_ok = true →
      env.git_dir_exists = true → env.rules_dir_exists = true →
      env.mkdir_fails = [] → env.write_fails = [] →
      (env.venv_exists = true ∨ env.venv_create_ok = true) →
      (env.develop_exists = true ∨ env.branch_create_ok = true) →
      (mainRun env).fst = Outcome.completed)
    ∧ (∀ env : Env,
      env.python_ok = true → env.git_ok = true →
      env.git_dir_exists = true → env.rules_dir_exists = true →
      env.mkdir_fails = [] → env.write_fails = [] →
      env.venv_exists = false → env.venv_create_ok = false →
      (mainRun env).fst = Outcome.raised)
    ∧ (∀ env : Env,
      env.python_ok = true → env.git_ok = true →
      env.git_dir_exists = true → env.rules_dir_exists = true →
      env.mkdir_fails = [] → env.write_fails = [] →
      (env.venv_exists = true ∨ env.venv_create_ok = true) →
      env.develop_exists = false → env.branch_create_ok = false →
      (mainRun env).fst = Outcome.raised) := by
  refine ⟨fun env h => (mainRun_exit1 env h).1, ?_, ?_, ?_⟩
  · intro env hp hg hgd hrd hmk hw hv hbr
    rw [mainRun_form env hp hg hgd hrd (by simp [hmk]) (by simp [hw]) hv]
    rcases hbr with h | h <;> simp [h]
  · intro env hp hg hgd hrd hmk hw hve hvc
    unfold mainRun
    rw [hp, hg, hgd, hrd,
      doMkdirs_ok env STEP3_DIRS (by simp [hmk]),
      doWrites_ok env TEMPLATE_WRITES (by simp [hw])]
    simp [hve, hvc]
  · intro env hp hg hgd hrd hmk hw hv hd hb
    rw [mainRun_form env hp hg hgd hrd (by simp [hmk]) (by simp [hw]) hv]
    simp [hd, hb]

/-- C5 counterexample for the claim as stated: in a healthy world where
only the optional venv creation fails, the run neither completes nor
exits 0 — the `CalledProcessError` propagates; likewise when only the
branch creation fails. -/
theorem optional_step_failure_cex :
    envVenvFails.venv_create_ok = false
    ∧ (mainRun envVenvFails).fst = Outcome.raised
    ∧ (mainRun envVenvFails).fst ≠ Outcome.completed
    ∧ (mainRun envVenvFails).fst ≠ Outcome.exited 0
    ∧ envBranchFails.branch_create_ok = false
    ∧ (mainRun envBranchFails).fst = Outcome.raised :=
  ⟨rfl, rfl, by decide, by decide, rfl, rfl⟩

/-- Witness for C5: the healthy fresh clone completes; with a failing
venv creation it raises. -/
theorem exit_code_behavior_witness :
    (mainRun envOk).fst = Outcome.completed
    ∧ (mainRun envVenvFails).fst = Outcome.raised
    ∧ (mainRun envNoGitDir).fst = Outcome.exited 1 :=
  ⟨exit_code_behavior.2.1 envOk rfl rfl rfl rfl rfl rfl (Or.inr rfl) (Or.inr rfl),
   exit_code_behavior.2.2.1 envVenvFails rfl rfl rfl rfl rfl rfl rfl rfl,
   exit_code_behavior.1 envNoGitDir (Or.inr (Or.inr (Or.inl rfl)))⟩

/-! ## C9: rerunning the full sequence -/

/-- C9: running the full sequence a second time from the state the
first successful run left behind writes byte-identical content to
exactly the files the first run wrote (`writesOf` equal as ordered
(path, bytes) lists), completes again, and performs no side effect the
first run did not perform (the second trace is a `Sublist` of the
first: the venv creation, the branch creation and the self-copy are
skipped, everything else — including the external npm install and the
branch listing — recurs identically). -/
theorem rerun_idempotent (env : Env)
    (hp : env.python_ok = true) (hg : env.git_ok = true)
    (hgd : env.git_dir_exists = true) (hrd : env.rules_dir_exists = true)
    (hmk : env.mkdir_fails = []) (hw : env.write_fails = [])
    (hco : env.copy_ok = true)
    (hv : env.venv_create_ok = true) (hb : env.branch_create_ok = true) :
    (mainRun env).fst = Outcome.completed
    ∧ (mainRun (updateEnv env)).fst = Outcome.completed
    ∧ writesOf (mainRun (updateEnv env)).snd = writesOf (mainRun env).snd
    ∧ List.Sublist (mainRun (updateEnv env)).snd (mainRun env).snd := by
  have h1 := mainRun_form env hp hg hgd hrd (by simp [hmk]) (by simp [hw]) (Or.inr hv)
  have h2 := mainRun_form (updateEnv env)
    (by simp [updateEnv, hp]) (by simp [updateEnv, hg])
    (by simp [updateEnv, hgd]) (by simp [updateEnv, hrd])
    (by simp [updateEnv, hmk]) (by simp [updateEnv, hw])
    (Or.inl (by simp [updateEnv]))
  have hcopy2 : (if (updateEnv env).script_copy_needed = true ∧ (updateEnv env).copy_ok = true
      then [Event.copyScriptE] else []) = ([] : List Event) := by
    rw [if_neg]
    intro hcon
    have h1c := hcon.1
    simp [updateEnv, hco] at h1c
  have hvenv2 : (if (updateEnv env).venv_exists = false
      then [Event.venvCreateE] else []) = ([] : List Event) := by
    rw [if_neg]
    simp [updateEnv]
  have hbranch2 : (if (updateEnv env).develop_exists = false
      then [Event.gitBranchCreateE] else []) = ([] : List Event) := by
    rw [if_neg]
    simp [updateEnv]
  have hnpm2 : (if (updateEnv env).npm_ok = true then [Event.npmInstallE] else [])
      = (if env.npm_ok = true then [Event.npmInstallE] else []) := by
    simp [updateEnv]
  have htoc2 : (if TOC_PATH ∈ (updateEnv env).write_fails then []
      else [Event.writeE TOC_PATH (generate_toc_content (updateEnv env).rules_files)])
      = (if TOC_PATH ∈ env.write_fails then []
      else [Event.writeE TOC_PATH (generate_toc_content env.rules_files)]) := by
    simp [updateEnv]
  have hout2 : (if (updateEnv env).develop_exists = false ∧ (updateEnv env).branch_create_ok = false
      then Outcome.raised else Outcome.completed) = Outcome.completed := by
    rw [if_neg]
    intro hcon
    have h1c := hcon.1
    simp [updateEnv] at h1c
  rw [h1, h2, hcopy2, hvenv2, hbranch2, hnpm2, htoc2, hout2]
  refine ⟨by simp [hb], rfl, ?_, ?_⟩
  · simp only [writesOf_append, writesOf_mkdirs, writesOf_templates, writesOf_branchList,
      writesOf_copy_ite, writesOf_venv_ite, writesOf_npm_ite, writesOf_branch_ite, writesOf_nil]
  · exact
      List.Sublist.append
        (List.Sublist.append
          (List.Sublist.append
            (List.Sublist.append
              (List.Sublist.append
                (List.Sublist.append
                  (List.Sublist.append (List.Sublist.refl _) (List.Sublist.refl _))
                  (List.nil_sublist _))
                (List.Sublist.refl _))
              (List.nil_sublist _))
            (List.Sublist.refl _))
          (List.Sublist.refl _))
        (List.nil_sublist _)

/-- Witness for C9: the healthy fresh clone, rerun. -/
theorem rerun_idempotent_witness :
    (mainRun envOk).fst = Outcome.completed
    ∧ (mainRun (updateEnv envOk)).fst = Outcome.completed
    ∧ writesOf (mainRun (updateEnv envOk)).snd = writesOf (mainRun envOk).snd
    ∧ List.Sublist (mainRun (updateEnv envOk)).snd (mainRun envOk).snd :=
  rerun_idempotent envOk rfl rfl rfl rfl rfl rfl rfl rfl rfl
